import Mathlib

/-!
Shallow embedding of `src/console.rs` from cargo-mutants: the console /
progress-reporting module.  Rust machine integers are modelled as `Nat`
(all the counters here are `usize` values that only ever grow by small
increments, far from overflow, and the source performs no wrapping
arithmetic on them).  `Instant` is modelled as a `Nat` timestamp and
`elapsed` as truncated subtraction against an explicit `now`; `Duration`
is modelled in whole seconds (`Duration::as_secs`) except where a claim
needs nothing finer.  Panics (`unwrap`, `expect`, assertion failures) are
modelled with `Except Unit`, the `error` case standing for an abort.
Terminal styling via the external `console` crate (`style(..).cyan()`
etc.) is modelled with colors disabled — the crate emits no escape codes
when not attached to a terminal — so styling is the identity on the text;
none of the properties below depend on color codes.
-/

namespace Console

/-- External enum `Phase` (from `crate::*`): the stages of one scenario run.
Its `Display` renders the lowercase stage name. -/
inductive Phase where
  | check
  | build
  | test
deriving DecidableEq, Repr

/-- `Display for Phase` (external), used via `phase.to_string()` / `style(phase)`. -/
def Phase.str : Phase → String
  | .check => "check"
  | .build => "build"
  | .test => "test"

/-- External value type `Mutant`, modelled by the accessor results that
`console.rs` reads from it (`describe_location`, `function_name`,
`return_type`, `replacement_text`). -/
structure Mutant where
  describe_location : String
  function_name : String
  return_type : String
  replacement_text : String
deriving DecidableEq, Repr

/-- External enum `Scenario`: the unmutated baseline or one mutant. -/
inductive Scenario where
  | baseline
  | mutant (m : Mutant)
deriving DecidableEq, Repr

/-- `Scenario::is_mutant` (external). -/
def Scenario.is_mutant : Scenario → Bool
  | .baseline => false
  | .mutant _ => true

/-- External enum `SummaryOutcome` (from `crate::outcome`). -/
inductive SummaryOutcome where
  | caughtMutant
  | missedMutant
  | timeout
  | unviable
  | success
  | failure
deriving DecidableEq, Repr

/-- The fields of the external `Options` bundle that `console.rs` reads. -/
structure Options where
  print_caught : Bool
  print_unviable : Bool
  show_times : Bool
  show_all_logs : Bool
deriving Repr

/-- External type `ScenarioOutcome`, modelled by the results of the methods
`console.rs` calls on it.  `log_content` is the result of
`get_log_content()`: `error` models an I/O failure reading the captured
log. -/
structure ScenarioOutcome where
  scenario : Scenario
  summary : SummaryOutcome
  mutant_caught : Bool
  check_or_build_failed : Bool
  should_show_logs : Bool
  log_content : Except Unit String
  phase_results : List (Phase × Nat)
deriving Repr

/-! ## Styling and formatting utilities (lines 521–599 of console.rs) -/

/-- Rust's `{:02}` format of a `u64`: zero-padded to width 2. -/
def pad2 (n : Nat) : String :=
  if n < 10 then "0" ++ toString n else toString n

/-- `duration_minutes_seconds` (console.rs lines 573–576):
`format!("{}:{:02}", secs / 60, secs % 60)` where `secs = duration.as_secs()`.
The argument is the duration's whole-second count. -/
def duration_minutes_seconds (secs : Nat) : String :=
  toString (secs / 60) ++ ":" ++ pad2 (secs % 60)

/-- `style_minutes_seconds` (lines 569–571); the cyan styling is the
identity under the no-color model. -/
def style_minutes_seconds (secs : Nat) : String :=
  duration_minutes_seconds secs

/-- `style_secs` (lines 563–567): `format!("{:.1}s", duration.as_secs_f32())`.
With durations modelled in whole seconds the fractional digit is 0. -/
def style_secs (secs : Nat) : String :=
  toString secs ++ ".0s"

/-- `format_mb` (lines 578–580). -/
def format_mb (bytes : Nat) : String :=
  toString (bytes / 1000000) ++ " MB"

/-- `style_mb` (lines 582–584); cyan styling is the identity here. -/
def style_mb (bytes : Nat) : String :=
  format_mb bytes

/-- `style_mutant` (lines 542–557): the colorized one-line description of a
mutant; colors are identity here, so this is the `Display` text. -/
def style_mutant (mutant : Mutant) : String :=
  mutant.describe_location ++ ": replace " ++ mutant.function_name ++
    (if mutant.return_type = "" then "" else " ") ++
    mutant.return_type ++ " with " ++ mutant.replacement_text

/-- `style_scenario` (lines 586–591). -/
def style_scenario : Scenario → String
  | .baseline => "Unmutated baseline"
  | .mutant m => style_mutant m

/-- `style_outcome` (lines 521–531): the styled label for a summary outcome
(colors identity under the no-color model). -/
def style_outcome (summary : SummaryOutcome) : String :=
  match summary with
  | .caughtMutant => "caught"
  | .missedMutant => "NOT CAUGHT"
  | .failure => "FAILED"
  | .success => "ok"
  | .unviable => "unviable"
  | .timeout => "TIMEOUT"

/-- `plural` (lines 593–599). -/
def plural (n : Nat) (noun : String) : String :=
  if n = 1 then toString n ++ " " ++ noun
  else toString n ++ " " ++ noun ++ "s"

/-! ## The progress model (console.rs lines 304–515) -/

/-- `CopyModel` (lines 483–486): progress of the preliminary tree copy. -/
structure CopyModel where
  bytes_copied : Nat
  start : Nat
deriving DecidableEq, Repr

/-- `ScenarioModel` (lines 423–431): one in-flight scenario. -/
structure ScenarioModel where
  scenario : Scenario
  name : String
  phase_start : Nat
  phase : Option Phase
  previous_phase_durations : List (Phase × Nat)
  log_file : String
deriving DecidableEq, Repr

/-- `ScenarioModel::new` (lines 434–443). -/
def ScenarioModel.new (scenario : Scenario) (start : Nat) (log_file : String) :
    ScenarioModel :=
  { scenario := scenario
    name := style_scenario scenario
    phase := none
    phase_start := start
    log_file := log_file
    previous_phase_durations := [] }

/-- `ScenarioModel::phase_started` (lines 445–448); `now` models
`Instant::now()`. -/
def ScenarioModel.phase_started (phase : Phase) (now : Nat) (sm : ScenarioModel) :
    ScenarioModel :=
  { sm with phase := some phase, phase_start := now }

/-- `ScenarioModel::phase_finished` (lines 450–455).  `debugAssertions`
models the build configuration: `debug_assert_eq!` aborts on a mismatch
only when debug assertions are compiled in (debug builds); in release
builds it is compiled out and execution continues. -/
def ScenarioModel.phase_finished (debugAssertions : Bool) (phase : Phase) (now : Nat)
    (sm : ScenarioModel) : Except Unit ScenarioModel :=
  if debugAssertions ∧ sm.phase ≠ some phase then
    .error ()
  else
    .ok { sm with
          previous_phase_durations :=
            sm.previous_phase_durations ++ [(phase, now - sm.phase_start)]
          phase := none }

/-- `LabModel` (lines 308–323), with `#[derive(Default)]`. -/
structure LabModel where
  copy_model : Option CopyModel := none
  scenario_models : List ScenarioModel := []
  lab_start_time : Option Nat := none
  mutants_start_time : Option Nat := none
  mutants_done : Nat := 0
  n_mutants : Nat := 0
  mutants_caught : Nat := 0
  mutants_missed : Nat := 0
  unviable : Nat := 0
  timeouts : Nat := 0
  successes : Nat := 0
  failures : Nat := 0
deriving Repr

/-- `LabModel::default()` (from `#[derive(Default)]`). -/
def LabModel.default : LabModel := {}

/-- `LabModel::remove_scenario` (lines 415–417):
`retain(|sm| sm.scenario != *scenario)`. -/
def LabModel.remove_scenario (scenario : Scenario) (m : LabModel) : LabModel :=
  { m with scenario_models :=
      m.scenario_models.filter (fun sm => !(sm.scenario == scenario)) }

/-- Mutate the first element satisfying `p` (the `iter_mut().find()` inside
`LabModel::find_scenario_mut`, lines 408–413); `error` models the
`expect("scenario is in progress")` panic when no element matches. -/
def updateFirst (p : α → Bool) (f : α → Except Unit α) :
    List α → Except Unit (List α)
  | [] => .error ()
  | x :: xs =>
    if p x then (f x).map (· :: xs)
    else (updateFirst p f xs).map (x :: ·)

/-- The update closure of `Console::scenario_started` (lines 43–49). -/
def LabModel.scenario_started (scenario : Scenario) (log_file : String) (now : Nat)
    (m : LabModel) : LabModel :=
  { m with scenario_models :=
      m.scenario_models ++ [ScenarioModel.new scenario now log_file] }

/-- The update closure of `Console::scenario_finished` (lines 58–69):
bump `mutants_done` when the scenario is a mutant, bump the counter for the
outcome's summary, and remove the in-flight entry. -/
def LabModel.scenario_finished_update (scenario : Scenario) (summary : SummaryOutcome)
    (m : LabModel) : LabModel :=
  let m := { m with
    mutants_done := m.mutants_done + (if scenario.is_mutant then 1 else 0) }
  let m :=
    match summary with
    | .caughtMutant => { m with mutants_caught := m.mutants_caught + 1 }
    | .missedMutant => { m with mutants_missed := m.mutants_missed + 1 }
    | .timeout => { m with timeouts := m.timeouts + 1 }
    | .unviable => { m with unviable := m.unviable + 1 }
    | .success => { m with successes := m.successes + 1 }
    | .failure => { m with failures := m.failures + 1 }
  m.remove_scenario scenario

/-- The update closure of `Console::discovered_mutants` (lines 157–161). -/
def LabModel.discovered_mutants (n_mutants : Nat) (now : Nat) (m : LabModel) :
    LabModel :=
  { m with n_mutants := n_mutants, lab_start_time := some now }

/-- The update closure of `Console::start_testing_mutants` (lines 165–168). -/
def LabModel.start_testing_mutants (now : Nat) (m : LabModel) : LabModel :=
  { m with mutants_start_time := some now }

/-- The update closure of `Console::scenario_phase_started` (lines 171–175). -/
def LabModel.scenario_phase_started (scenario : Scenario) (phase : Phase) (now : Nat)
    (m : LabModel) : Except Unit LabModel :=
  (updateFirst (fun sm => sm.scenario == scenario)
      (fun sm => .ok (sm.phase_started phase now)) m.scenario_models).map
    (fun sms => { m with scenario_models := sms })

/-- The update closure of `Console::scenario_phase_finished` (lines 177–181). -/
def LabModel.scenario_phase_finished (debugAssertions : Bool) (scenario : Scenario)
    (phase : Phase) (now : Nat) (m : LabModel) : Except Unit LabModel :=
  (updateFirst (fun sm => sm.scenario == scenario)
      (fun sm => sm.phase_finished debugAssertions phase now) m.scenario_models).map
    (fun sms => { m with scenario_models := sms })

/-- The update closure of `Console::lab_finished` (lines 184–186). -/
def LabModel.lab_finished_update (m : LabModel) : LabModel :=
  { m with scenario_models := [] }

/-! ## Traces of View Controller operations -/

/-- One state-mutating View Controller call (the operations of `Console`
that update the `LabModel`).  Timestamps carry the `Instant::now()`
observed by the call. -/
inductive Op where
  | scenario_started (scenario : Scenario) (log_file : String) (now : Nat)
  | scenario_finished (scenario : Scenario) (summary : SummaryOutcome)
  | discovered_mutants (n : Nat) (now : Nat)
  | start_testing_mutants (now : Nat)
  | scenario_phase_started (scenario : Scenario) (phase : Phase) (now : Nat)
  | scenario_phase_finished (scenario : Scenario) (phase : Phase) (now : Nat)
  | lab_finished
  | tick
deriving Repr

/-- Apply one operation to the model; `error` models a panic inside the
update closure. -/
def step (debugAssertions : Bool) (op : Op) (m : LabModel) : Except Unit LabModel :=
  match op with
  | .scenario_started scenario log_file now =>
    .ok (m.scenario_started scenario log_file now)
  | .scenario_finished scenario summary =>
    .ok (m.scenario_finished_update scenario summary)
  | .discovered_mutants n now => .ok (m.discovered_mutants n now)
  | .start_testing_mutants now => .ok (m.start_testing_mutants now)
  | .scenario_phase_started scenario phase now =>
    m.scenario_phase_started scenario phase now
  | .scenario_phase_finished scenario phase now =>
    m.scenario_phase_finished debugAssertions scenario phase now
  | .lab_finished => .ok m.lab_finished_update
  | .tick => .ok m

/-- Run a sequence of operations from a given state. -/
def runFrom (debugAssertions : Bool) (ops : List Op) (m : LabModel) :
    Except Unit LabModel :=
  ops.foldlM (fun m op => step debugAssertions op m) m

/-- Run a sequence of operations from the initial (default) state. -/
def runOps (debugAssertions : Bool) (ops : List Op) : Except Unit LabModel :=
  runFrom debugAssertions ops LabModel.default

/-- Whether an operation is a `scenario_finished` call for a mutant
scenario: the only events that increment `mutants_done`. -/
def isMutantFinish : Op → Bool
  | .scenario_finished scenario _ => scenario.is_mutant
  | _ => false

/-- The number of mutant-scenario `scenario_finished` events in a trace. -/
def countMutantFinishes (ops : List Op) : Nat :=
  ops.countP isMutantFinish

/-- How much one operation adds to `mutants_done`. -/
def opDoneIncr (op : Op) : Nat :=
  if isMutantFinish op then 1 else 0

/-! ## Dual-sink diagnostic router (console.rs lines 246–302) -/

/-- Model of an open `std::fs::File` used as the debug log: its byte
contents plus a `broken` flag injecting an underlying I/O error.  A
successful OS-level write is modelled as accepting the whole buffer. -/
structure DbgFile where
  contents : List Nat
  broken : Bool
deriving DecidableEq, Repr

/-- `File::write` on the model: fails when `broken`, otherwise appends the
buffer and reports its full length. -/
def DbgFile.write (f : DbgFile) (buf : List Nat) : Except Unit (DbgFile × Nat) :=
  if f.broken then .error ()
  else .ok ({ f with contents := f.contents ++ buf }, buf.length)

/-- `File::flush` on the model. -/
def DbgFile.flush (f : DbgFile) : Except Unit Unit :=
  if f.broken then .error () else .ok ()

/-- `Console::set_debug_log` (lines 215–217): store the file in the shared
`Option<File>` slot. -/
def set_debug_log (file : DbgFile) (_st : Option DbgFile) : Option DbgFile :=
  some file

/-- `io::Write::write for DebugLogWriter` (lines 287–293): forward to the
file if one is set, else report the full length with no effect.  Returns
the new slot state and the I/O result. -/
def DebugLogWriter.write (st : Option DbgFile) (buf : List Nat) :
    Option DbgFile × Except Unit Nat :=
  match st with
  | some f =>
    match f.write buf with
    | .ok (f', n) => (some f', .ok n)
    | .error e => (some f, .error e)
  | none => (none, .ok buf.length)

/-- `io::Write::flush for DebugLogWriter` (lines 295–301). -/
def DebugLogWriter.flush (st : Option DbgFile) : Except Unit Unit :=
  match st with
  | some f => f.flush
  | none => .ok ()

/-- Continuation-byte test for UTF-8 (0x80–0xBF). -/
def contByte (b : Nat) : Bool :=
  decide (0x80 ≤ b) && decide (b ≤ 0xBF)

/-- Model of `std::str::from_utf8`: strict UTF-8 decoding of a byte list
(rejecting overlong encodings, surrogates and values above U+10FFFF),
returning the decoded characters or `none` on invalid input. -/
def utf8Decode : List Nat → Option (List Char)
  | [] => some []
  | b1 :: t1 =>
    if b1 < 0x80 then
      (utf8Decode t1).map (fun cs => Char.ofNat b1 :: cs)
    else if b1 < 0xC2 then none
    else if b1 ≤ 0xDF then
      match t1 with
      | b2 :: t2 =>
        if contByte b2 then
          (utf8Decode t2).map
            (fun cs => Char.ofNat ((b1 - 0xC0) * 0x40 + (b2 - 0x80)) :: cs)
        else none
      | [] => none
    else if b1 ≤ 0xEF then
      match t1 with
      | b2 :: b3 :: t3 =>
        if (if b1 = 0xE0 then decide (0xA0 ≤ b2) && decide (b2 ≤ 0xBF)
            else if b1 = 0xED then decide (0x80 ≤ b2) && decide (b2 ≤ 0x9F)
            else contByte b2) && contByte b3 then
          (utf8Decode t3).map
            (fun cs =>
              Char.ofNat ((b1 - 0xE0) * 0x1000 + (b2 - 0x80) * 0x40 + (b3 - 0x80))
                :: cs)
        else none
      | _ => none
    else if b1 ≤ 0xF4 then
      match t1 with
      | b2 :: b3 :: b4 :: t4 =>
        if (if b1 = 0xF0 then decide (0x90 ≤ b2) && decide (b2 ≤ 0xBF)
            else if b1 = 0xF4 then decide (0x80 ≤ b2) && decide (b2 ≤ 0x8F)
            else contByte b2) && contByte b3 && contByte b4 then
          (utf8Decode t4).map
            (fun cs =>
              Char.ofNat ((b1 - 0xF0) * 0x40000 + (b2 - 0x80) * 0x1000 +
                (b3 - 0x80) * 0x40 + (b4 - 0x80)) :: cs)
        else none
      | _ => none
    else none

/-- `io::Write::write for TerminalWriter` (lines 262–268):
`self.view.message(std::str::from_utf8(buf).unwrap()); Ok(buf.len())`.
The view is modelled by its list of emitted messages; the `unwrap` panic
on non-UTF-8 input is the `error` case. -/
def TerminalWriter.write (messages : List String) (buf : List Nat) :
    Except Unit (List String × Nat) :=
  match utf8Decode buf with
  | some cs => .ok (messages ++ [String.mk cs], buf.length)
  | none => .error ()

/-- `io::Write::flush for TerminalWriter` (lines 270–272). -/
def TerminalWriter.flush : Except Unit Unit := .ok ()

/-! ## Rendering (console.rs lines 325–404, 458–515) -/

/-- `COPY_MESSAGE` (line 21). -/
def COPY_MESSAGE : String := "Copy source to scratch directory"

/-- `nutmeg::Model::render for CopyModel` (lines 506–515). -/
def CopyModel.render (now : Nat) (c : CopyModel) : String :=
  COPY_MESSAGE ++ " ... " ++ style_mb c.bytes_copied ++ " in " ++
    style_secs (now - c.start)

/-- `nutmeg::Model::render for ScenarioModel` (lines 458–480).
`lastLine` models the fallible `last_line(&self.log_file)` helper:
`some` is the `Ok` case, `none` an unreadable log (silently omitted). -/
def ScenarioModel.render (lastLine : String → Option String) (now : Nat)
    (sm : ScenarioModel) : String :=
  let prs := sm.previous_phase_durations.map
    (fun pd => style_secs pd.2 ++ " " ++ pd.1.str)
  let prs :=
    match sm.phase with
    | some phase => prs ++ [style_secs (now - sm.phase_start) ++ " " ++ phase.str]
    | none => prs
  let s := sm.name ++ " ... " ++ String.intercalate " + " prs
  match lastLine sm.log_file with
  | some l => s ++ "\n    " ++ l
  | none => s

/-- The percentage figure of the lab line (lines 336–340):
`((mutants_done as f64 / n_mutants as f64) * 100.0).round()` when
`n_mutants > 0`, else `0.0`.  Modelled as exact rational rounding
(half away from zero); for the counter magnitudes in use the `f64`
computation agrees. -/
def percentDone (done n_mutants : Nat) : Nat :=
  if 0 < n_mutants then (done * 200 + n_mutants) / (2 * n_mutants) else 0

/-- The text the lab-summary section of `LabModel::render` appends
(lines 334–395): empty when lab timing has not started; otherwise the
counts line ending in `"\n"`, with the estimate clause appended once
`mutants_done > 2`.  `est start done n` models the external
`nutmeg::estimate_remaining` display; the `error` case is the
`mutants_start_time.unwrap()` panic. -/
def LabModel.labSection (est : Nat → Nat → Nat → String) (now : Nat)
    (m : LabModel) : Except Unit String :=
  match m.lab_start_time with
  | none => .ok ""
  | some lab_start =>
    let elapsed := now - lab_start
    let s := toString m.mutants_done ++ "/" ++ toString m.n_mutants ++
      " mutants tested, " ++ toString (percentDone m.mutants_done m.n_mutants) ++
      "% done"
    let s := if 0 < m.mutants_missed then
        s ++ ", " ++ toString m.mutants_missed ++ " missed" else s
    let s := if 0 < m.timeouts then
        s ++ ", " ++ toString m.timeouts ++ " timeout" else s
    let s := if 0 < m.mutants_caught then
        s ++ ", " ++ toString m.mutants_caught ++ " caught" else s
    let s := if 0 < m.unviable then
        s ++ ", " ++ toString m.unviable ++ " unviable" else s
    let s := s ++ ", " ++ style_minutes_seconds elapsed ++ " elapsed"
    if 2 < m.mutants_done then
      match m.mutants_start_time with
      | some mst =>
        .ok (s ++ ", about " ++ est mst m.mutants_done m.n_mutants ++
          " remaining" ++ "\n")
      | none => .error ()
    else
      .ok (s ++ "\n")

/-- The trailing-newline strip of `LabModel::render` (lines 400–402):
`while s.ends_with('\n') { s.pop(); }`. -/
def trimTrailingNewlines (s : String) : String :=
  String.mk ((s.data.reverse.dropWhile (fun c => c = '\n')).reverse)

/-- The text the copy block of `LabModel::render` contributes
(lines 328–330): the copy model's rendering, or nothing. -/
def LabModel.copyText (now : Nat) (m : LabModel) : String :=
  match m.copy_model with
  | some copy => copy.render now
  | none => ""

/-- `nutmeg::Model::render for LabModel` (lines 326–404): copy block, blank
line separator, lab summary section, one block per in-flight scenario in
order, then strip trailing newlines.  The `error` case is the
`mutants_start_time.unwrap()` panic inside the estimate clause. -/
def LabModel.render (est : Nat → Nat → Nat → String)
    (lastLine : String → Option String) (now : Nat) (m : LabModel) :
    Except Unit String :=
  let s := m.copyText now
  let s := if s ≠ "" then s ++ "\n" else s
  (m.labSection est now).map (fun lab =>
    let s := s ++ lab
    let s := m.scenario_models.foldl
      (fun acc sm => acc ++ sm.render lastLine now ++ "\n") s
    trimTrailingNewlines s)

/-- The end-to-end state of the spec's §8 scenario: 10 mutants discovered,
testing started, 3 finished with outcomes caught / missed / timeout. -/
def c5Model : LabModel :=
  { LabModel.default with
      lab_start_time := some 0
      mutants_start_time := some 2
      mutants_done := 3
      n_mutants := 10
      mutants_missed := 1
      timeouts := 1
      mutants_caught := 1 }

/-- The suppression condition of `Console::scenario_finished`
(lines 71–75): a caught mutant without `print_caught`, or a mutant whose
check or build failed without `print_unviable`. -/
def suppressed (options : Options) (outcome : ScenarioOutcome) : Bool :=
  (outcome.mutant_caught && !options.print_caught) ||
    (outcome.scenario.is_mutant && outcome.check_or_build_failed &&
      !options.print_unviable)

/-- The base completion message of `Console::scenario_finished`
(lines 79–100): styled scenario name, `" ... "`, styled outcome, and —
when `show_times` is set — the `" + "`-joined phase durations. -/
def messageBase (options : Options) (scenario : Scenario)
    (outcome : ScenarioOutcome) : String :=
  let s := style_scenario scenario ++ " ... " ++ style_outcome outcome.summary
  if options.show_times then
    s ++ " in " ++ String.intercalate " + "
      (outcome.phase_results.map (fun pr => style_secs pr.2 ++ " " ++ pr.1.str))
  else s

/-- The message-emission logic of `Console::scenario_finished`
(lines 71–111): `ok none` models the early `return` (message suppressed),
`ok (some s)` models `view.message(&s)`, and `error` models the
`expect("read log content")` panic when the captured log cannot be read. -/
def scenario_finished_message (options : Options) (scenario : Scenario)
    (outcome : ScenarioOutcome) : Except Unit (Option String) :=
  if suppressed options outcome then
    .ok none
  else
    let s := messageBase options scenario outcome
    if outcome.should_show_logs || options.show_all_logs then
      match outcome.log_content with
      | .ok content => .ok (some (s ++ "\n" ++ content ++ "\n"))
      | .error e => .error e
    else
      .ok (some (s ++ "\n"))

/-- Options with every display flag off. -/
def c6Options : Options :=
  { print_caught := false
    print_unviable := false
    show_times := false
    show_all_logs := false }

/-- A baseline success outcome with a readable log. -/
def c6Outcome : ScenarioOutcome :=
  { scenario := .baseline
    summary := .success
    mutant_caught := false
    check_or_build_failed := false
    should_show_logs := false
    log_content := .ok "line"
    phase_results := [] }

/-- Concrete mutant used in counterexamples and witnesses. -/
def exMutant : Mutant :=
  { describe_location := "src/lib.rs:1:1"
    function_name := "f"
    return_type := "-> u32"
    replacement_text := "0" }

/-- A trace in which discovery reports zero mutants and then a mutant
scenario finishes anyway: the driver, not the console, is what keeps
`mutants_done` within `n_mutants`. -/
def c1Trace : List Op :=
  [.discovered_mutants 0 5, .scenario_finished (.mutant exMutant) .missedMutant]

/-- Trace for the C1 witness: discovery reports 2 mutants, one finishes. -/
def c1WitnessTrace : List Op :=
  [.discovered_mutants 2 5, .scenario_finished (.mutant exMutant) .missedMutant]

/-- The state after running `c1WitnessTrace`. -/
def c1WitnessState : LabModel :=
  ((runOps true c1WitnessTrace).toOption).getD LabModel.default

/-- The per-summary counter of `LabModel` that `scenario_finished`
increments for each `SummaryOutcome` variant. -/
def counterFor : SummaryOutcome → LabModel → Nat
  | .caughtMutant, m => m.mutants_caught
  | .missedMutant, m => m.mutants_missed
  | .timeout, m => m.timeouts
  | .unviable, m => m.unviable
  | .success, m => m.successes
  | .failure, m => m.failures

/-- A model with lab timing started and nothing else: the simplest state
whose render output has a summary line. -/
def c4Model : LabModel := { LabModel.default with lab_start_time := some 0 }

/-- A model where more than two mutants completed but
`start_testing_mutants` was never called. -/
def c9PanicModel : LabModel :=
  { LabModel.default with lab_start_time := some 0, mutants_done := 3 }

/-- Like `c9PanicModel` but with the mutants-testing start time set. -/
def c9OkModel : LabModel :=
  { LabModel.default with
      lab_start_time := some 0
      mutants_start_time := some 1
      mutants_done := 3 }

/-! ## Helper lemmas -/

theorem step_mutants_done {da : Bool} {op : Op} {m m' : LabModel}
    (h : step da op m = .ok m') :
    m'.mutants_done = m.mutants_done + opDoneIncr op := by
  cases op with
  | scenario_started s l n =>
    simp only [step, Except.ok.injEq] at h
    subst h
    rfl
  | scenario_finished s summary =>
    simp only [step, Except.ok.injEq] at h
    subst h
    cases summary <;> cases s <;> rfl
  | discovered_mutants n now =>
    simp only [step, Except.ok.injEq] at h
    subst h
    rfl
  | start_testing_mutants now =>
    simp only [step, Except.ok.injEq] at h
    subst h
    rfl
  | scenario_phase_started s p now =>
    simp only [step, LabModel.scenario_phase_started] at h
    cases hu : updateFirst (fun sm => sm.scenario == s)
        (fun sm => .ok (sm.phase_started p now)) m.scenario_models with
    | error e => rw [hu] at h; simp [Except.map] at h
    | ok sms =>
      rw [hu] at h
      simp only [Except.map, Except.ok.injEq] at h
      subst h
      rfl
  | scenario_phase_finished s p now =>
    simp only [step, LabModel.scenario_phase_finished] at h
    cases hu : updateFirst (fun sm => sm.scenario == s)
        (fun sm => sm.phase_finished da p now) m.scenario_models with
    | error e => rw [hu] at h; simp [Except.map] at h
    | ok sms =>
      rw [hu] at h
      simp only [Except.map, Except.ok.injEq] at h
      subst h
      rfl
  | lab_finished =>
    simp only [step, Except.ok.injEq] at h
    subst h
    rfl
  | tick =>
    simp only [step, Except.ok.injEq] at h
    subst h
    rfl

theorem runFrom_mutants_done {da : Bool} {ops : List Op} :
    ∀ {m0 m : LabModel}, runFrom da ops m0 = .ok m →
      m.mutants_done ≤ m0.mutants_done + countMutantFinishes ops := by
  induction ops with
  | nil =>
    intro m0 m h
    simp only [runFrom, List.foldlM, pure, Except.pure, Except.ok.injEq] at h
    subst h
    simp [countMutantFinishes]
  | cons op ops ih =>
    intro m0 m h
    simp only [runFrom, List.foldlM] at h
    cases hs : step da op m0 with
    | error e =>
      rw [hs] at h
      simp [bind, Except.bind] at h
    | ok m1 =>
      rw [hs] at h
      simp only [bind, Except.bind] at h
      have h2 := ih h
      have h1 := step_mutants_done hs
      have hc : countMutantFinishes (op :: ops) =
          opDoneIncr op + countMutantFinishes ops := by
        simp only [countMutantFinishes, opDoneIncr, List.countP_cons]
        cases hb : isMutantFinish op
        · simp
        · simp; omega
      calc m.mutants_done ≤ m1.mutants_done + countMutantFinishes ops := h2
        _ = m0.mutants_done + opDoneIncr op + countMutantFinishes ops := by rw [h1]
        _ = m0.mutants_done + countMutantFinishes (op :: ops) := by rw [hc]; omega

theorem head?_dropWhile_false {p : α → Bool} :
    ∀ (l : List α) (a : α), (l.dropWhile p).head? = some a → p a = false := by
  intro l
  induction l with
  | nil => intro a h; simp [List.dropWhile] at h
  | cons x xs ih =>
    intro a h
    by_cases hx : p x = true
    · rw [List.dropWhile_cons_of_pos hx] at h
      exact ih a h
    · rw [List.dropWhile_cons_of_neg hx] at h
      simp only [List.head?_cons, Option.some.injEq] at h
      subst h
      simpa using hx

theorem trimTrailingNewlines_no_newline (s : String) (c : Char)
    (h : (trimTrailingNewlines s).data.getLast? = some c) : c ≠ '\n' := by
  simp only [trimTrailingNewlines] at h
  rw [List.getLast?_reverse] at h
  have := head?_dropWhile_false _ _ h
  simpa using this

theorem foldl_str_append_shift :
    ∀ (l : List String) (a : String),
      l.foldl (fun r s => r ++ s) a = a ++ l.foldl (fun r s => r ++ s) "" := by
  intro l
  induction l with
  | nil => intro a; simp [String.append_empty]
  | cons y ys ih =>
    intro a
    simp only [List.foldl_cons]
    rw [ih (a ++ y), ih ("" ++ y), String.empty_append, String.append_assoc]

theorem string_join_cons (y : String) (ys : List String) :
    String.join (y :: ys) = y ++ String.join ys := by
  simp only [String.join, List.foldl_cons]
  rw [foldl_str_append_shift ys ("" ++ y), String.empty_append]

theorem foldl_render_join (f : ScenarioModel → String) :
    ∀ (l : List ScenarioModel) (init : String),
      l.foldl (fun acc sm => acc ++ f sm ++ "\n") init =
        init ++ String.join (l.map (fun sm => f sm ++ "\n")) := by
  intro l
  induction l with
  | nil => intro init; simp [String.join, String.append_empty]
  | cons x xs ih =>
    intro init
    simp only [List.foldl_cons, List.map_cons]
    rw [ih, string_join_cons]
    simp [String.append_assoc]

theorem suffix_append_tail (a b : String) : b.data <:+ (a ++ b).data :=
  ⟨a.data, (String.data_append a b).symm⟩

end Console

/-! ## Claim C1 -/

/-- C1 (amended): across every sequence of View Controller operations,
`mutants_done` is non-decreasing; and after any successful run,
`mutants_done ≤ n_mutants` holds provided the trace contains at most
`n_mutants` mutant-scenario `scenario_finished` events — the code itself
does not enforce the bound against a driver that finishes more mutant
scenarios than were discovered. -/
theorem c1_mutants_done_monotone_bounded :
    (∀ (da : Bool) (op : Console.Op) (m m' : Console.LabModel),
        Console.step da op m = .ok m' → m.mutants_done ≤ m'.mutants_done) ∧
    (∀ (da : Bool) (ops : List Console.Op) (m : Console.LabModel),
        Console.runOps da ops = .ok m →
        Console.countMutantFinishes ops ≤ m.n_mutants →
        m.mutants_done ≤ m.n_mutants) := by
  constructor
  · intro da op m m' h
    rw [Console.step_mutants_done h]
    exact Nat.le_add_right _ _
  · intro da ops m h hle
    have hrun : Console.runFrom da ops Console.LabModel.default = .ok m := h
    have hbound := Console.runFrom_mutants_done hrun
    have hzero : Console.LabModel.default.mutants_done = 0 := rfl
    rw [hzero, Nat.zero_add] at hbound
    exact hbound.trans hle

/-- Witness for C1: a concrete `scenario_finished` step does not decrease
`mutants_done`, and after the concrete trace (2 mutants discovered, 1
finished) the bound `mutants_done ≤ n_mutants` holds. -/
theorem c1_witness :
    Console.LabModel.default.mutants_done ≤
      (Console.LabModel.scenario_finished_update (.mutant Console.exMutant)
        .missedMutant Console.LabModel.default).mutants_done ∧
    Console.c1WitnessState.mutants_done ≤ Console.c1WitnessState.n_mutants := by
  constructor
  · exact c1_mutants_done_monotone_bounded.1 true
      (.scenario_finished (.mutant Console.exMutant) .missedMutant) _ _ rfl
  · exact c1_mutants_done_monotone_bounded.2 true Console.c1WitnessTrace
      Console.c1WitnessState rfl (by decide)

/-- Counterexample to C1 as stated: after `discovered_mutants` has set
`n_mutants := 0` (so discovery has happened: `lab_start_time` is set), a
single mutant `scenario_finished` drives `mutants_done` to 1 > 0 =
`n_mutants`; no View Controller operation prevents this. -/
theorem c1_counterexample :
    (Console.runOps true Console.c1Trace).map
        (fun m => (m.lab_start_time.isSome, decide (m.mutants_done ≤ m.n_mutants)))
      = .ok (true, false) := rfl

/-! ## Claim C7 -/

/-- C7: for every duration, `duration_minutes_seconds` renders
`"{mins}:{secs:02}"` with `mins` the whole seconds divided by 60 and
`secs` the whole seconds modulo 60, the seconds zero-padded to two
digits; in particular 0s ↦ "0:00", 3s ↦ "0:03", 73s ↦ "1:13" and
6003s ↦ "100:03". -/
theorem c7_duration_minutes_seconds (d : Nat) :
    Console.duration_minutes_seconds d =
      toString (d / 60) ++ ":" ++
        (if d % 60 < 10 then "0" ++ toString (d % 60) else toString (d % 60)) ∧
    Console.duration_minutes_seconds 0 = "0:00" ∧
    Console.duration_minutes_seconds 3 = "0:03" ∧
    Console.duration_minutes_seconds 73 = "1:13" ∧
    Console.duration_minutes_seconds 6003 = "100:03" := by
  refine ⟨rfl, by decide, by decide, by decide, by decide⟩

/-! ## Claim C2 -/

/-- C2 (amended): in builds with debug assertions enabled, calling
`phase_finished p` when no phase is active or when the active phase
differs from `p` is a fatal assertion (`debug_assert_eq!`): the call
aborts and no `(phase, duration)` pair is recorded; equivalently, such a
call returns normally only when the active phase is exactly `p`.  (With
debug assertions disabled — release builds — the assertion is compiled
out; see the counterexample.) -/
theorem c2_phase_finished_mismatch_fatal
    (sm : Console.ScenarioModel) (p : Console.Phase) (now : Nat) :
    (sm.phase ≠ some p →
      Console.ScenarioModel.phase_finished true p now sm = .error ()) ∧
    (∀ sm', Console.ScenarioModel.phase_finished true p now sm = .ok sm' →
      sm.phase = some p) := by
  constructor
  · intro hne
    simp [Console.ScenarioModel.phase_finished, hne]
  · intro sm' hok
    by_contra hne
    simp [Console.ScenarioModel.phase_finished, hne] at hok

/-- Witness for C2: a freshly created scenario model (no active phase)
fed `phase_finished build` in a debug build aborts. -/
theorem c2_witness :
    Console.ScenarioModel.phase_finished true .build 7
        (Console.ScenarioModel.new .baseline 0 "log") = .error () :=
  (c2_phase_finished_mismatch_fatal (Console.ScenarioModel.new .baseline 0 "log")
      .build 7).1 (by simp [Console.ScenarioModel.new])

/-- Counterexample to C2 as stated: `phase_finished` checks the active
phase with `debug_assert_eq!`, which is compiled out in release builds.
With debug assertions disabled, a `phase_finished build` on a scenario
with no active phase is silently accepted and records the pair
`(build, elapsed)`. -/
theorem c2_counterexample :
    Console.ScenarioModel.phase_finished false .build 7
        (Console.ScenarioModel.new .baseline 0 "log") =
      .ok { Console.ScenarioModel.new .baseline 0 "log" with
            previous_phase_durations := [(.build, 7)]
            phase := none } := rfl

/-! ## Claim C10 -/

/-- C10: a `scenario_finished` update for the baseline scenario leaves
`mutants_done` unchanged, removes the baseline's in-flight entry,
increments exactly the summary counter matching the outcome (all other
summary counters unchanged), and leaves every other `LabModel` field
(`copy_model`, `lab_start_time`, `mutants_start_time`, `n_mutants`)
unchanged. -/
theorem c10_baseline_finish_frame
    (summary : Console.SummaryOutcome) (m : Console.LabModel) :
    (Console.LabModel.scenario_finished_update .baseline summary m).mutants_done
        = m.mutants_done ∧
    (Console.LabModel.scenario_finished_update .baseline summary m).scenario_models
        = m.scenario_models.filter (fun sm => !(sm.scenario == .baseline)) ∧
    Console.counterFor summary
        (Console.LabModel.scenario_finished_update .baseline summary m)
        = Console.counterFor summary m + 1 ∧
    (∀ o, o ≠ summary →
      Console.counterFor o
          (Console.LabModel.scenario_finished_update .baseline summary m)
        = Console.counterFor o m) ∧
    (Console.LabModel.scenario_finished_update .baseline summary m).copy_model
        = m.copy_model ∧
    (Console.LabModel.scenario_finished_update .baseline summary m).lab_start_time
        = m.lab_start_time ∧
    (Console.LabModel.scenario_finished_update .baseline summary m).mutants_start_time
        = m.mutants_start_time ∧
    (Console.LabModel.scenario_finished_update .baseline summary m).n_mutants
        = m.n_mutants := by
  cases summary <;>
    refine ⟨rfl, rfl, rfl, ?_, rfl, rfl, rfl, rfl⟩ <;>
    intro o ho <;>
    cases o <;>
    first
      | rfl
      | exact absurd rfl ho

/-- Witness for C10: finishing the baseline with a `caughtMutant` outcome
leaves the `success` counter of the default model unchanged. -/
theorem c10_witness :
    Console.counterFor .success
        (Console.LabModel.scenario_finished_update .baseline .caughtMutant
          Console.LabModel.default)
      = Console.counterFor .success Console.LabModel.default :=
  (c10_baseline_finish_frame .caughtMutant Console.LabModel.default).2.2.2.1
    .success (by decide)

/-! ## Claim C3 -/

/-- C3: before `set_debug_log`, a debug-log write leaves the slot empty and
reports the full buffer length, and flush succeeds; after
`set_debug_log(file)`, a write appends exactly the buffer's bytes to the
file and reports its full length when the file is healthy, and the file's
underlying I/O error is propagated to the caller when it is not. -/
theorem c3_debug_log_writer (buf : List Nat) (st : Option Console.DbgFile)
    (f : Console.DbgFile) :
    Console.DebugLogWriter.write none buf = (none, .ok buf.length) ∧
    Console.DebugLogWriter.flush none = .ok () ∧
    (f.broken = false →
      Console.DebugLogWriter.write (Console.set_debug_log f st) buf =
        (some { f with contents := f.contents ++ buf }, .ok buf.length)) ∧
    (f.broken = true →
      Console.DebugLogWriter.write (Console.set_debug_log f st) buf =
        (some f, .error ())) := by
  refine ⟨rfl, rfl, ?_, ?_⟩
  · intro hb
    simp [Console.DebugLogWriter.write, Console.set_debug_log, Console.DbgFile.write, hb]
  · intro hb
    simp [Console.DebugLogWriter.write, Console.set_debug_log, Console.DbgFile.write, hb]

/-- Witness for C3: a healthy file accumulates exactly the written bytes;
a broken file propagates its error. -/
theorem c3_witness :
    Console.DebugLogWriter.write
        (Console.set_debug_log { contents := [1, 2], broken := false } none) [3, 4] =
      (some { contents := [1, 2, 3, 4], broken := false }, .ok 2) ∧
    Console.DebugLogWriter.write
        (Console.set_debug_log { contents := [], broken := true } none) [3] =
      (some { contents := [], broken := true }, .error ()) :=
  ⟨(c3_debug_log_writer [3, 4] none { contents := [1, 2], broken := false }).2.2.1 rfl,
   (c3_debug_log_writer [3] none { contents := [], broken := true }).2.2.2 rfl⟩

/-! ## Claim C8 -/

/-- C8: every successful terminal-writer write forwards the whole buffer
as a single appended message and returns the full buffer length (never a
partial count); the write fails — modelling the `unwrap` panic — exactly
when the buffer is not valid UTF-8; and flush always succeeds (no I/O
error is ever returned). -/
theorem c8_terminal_writer (messages : List String) (buf : List Nat) :
    (∀ r, Console.TerminalWriter.write messages buf = .ok r →
      ∃ cs, Console.utf8Decode buf = some cs ∧
        r = (messages ++ [String.mk cs], buf.length)) ∧
    ((∃ e, Console.TerminalWriter.write messages buf = .error e) ↔
      Console.utf8Decode buf = none) ∧
    Console.TerminalWriter.flush = .ok () := by
  refine ⟨?_, ?_, rfl⟩
  · intro r h
    cases hd : Console.utf8Decode buf with
    | none => simp [Console.TerminalWriter.write, hd] at h
    | some cs =>
      simp only [Console.TerminalWriter.write, hd, Except.ok.injEq] at h
      exact ⟨cs, rfl, h.symm⟩
  · constructor
    · rintro ⟨e, he⟩
      cases hd : Console.utf8Decode buf with
      | none => rfl
      | some cs => simp [Console.TerminalWriter.write, hd] at he
    · intro hd
      exact ⟨(), by simp [Console.TerminalWriter.write, hd]⟩

/-- Witness for C8: writing the bytes of "hi" to an empty view appends one
message and reports length 2; and 0xFF is rejected as invalid UTF-8. -/
theorem c8_witness :
    (∃ cs, Console.utf8Decode [104, 105] = some cs ∧
      (([String.mk ['h', 'i']], 2) : List String × Nat) =
        ([] ++ [String.mk cs], ([104, 105] : List Nat).length)) ∧
    Console.utf8Decode [0xFF] = none :=
  ⟨(c8_terminal_writer [] [104, 105]).1 ([String.mk ['h', 'i']], 2) rfl,
   (c8_terminal_writer [] [0xFF]).2.1.mp ⟨(), rfl⟩⟩

/-! ## Claim C4 -/

/-- C4 (amended): for every model state, a successful render produces the
copy-state block first (followed by a blank-line separator when present),
then the lab summary section — which is empty unless lab timing has
started — then one block per in-flight scenario in insertion order, with
all trailing newlines stripped, so the result is NOT newline-terminated:
its last character is never a newline. -/
theorem c4_render_structure (est : Nat → Nat → Nat → String)
    (ll : String → Option String) (now : Nat) (m : Console.LabModel) :
    (∀ s lab, m.render est ll now = .ok s →
      m.labSection est now = .ok lab →
      s = Console.trimTrailingNewlines
        ((if m.copyText now ≠ "" then m.copyText now ++ "\n" else m.copyText now)
          ++ lab
          ++ String.join (m.scenario_models.map (fun sm => sm.render ll now ++ "\n")))) ∧
    (∀ s c, m.render est ll now = .ok s → s.data.getLast? = some c → c ≠ '\n') ∧
    (m.lab_start_time = none → m.labSection est now = .ok "") := by
  refine ⟨?_, ?_, ?_⟩
  · intro s lab hs hlab
    simp only [Console.LabModel.render, hlab, Except.map, Except.ok.injEq] at hs
    rw [← hs, Console.foldl_render_join]
  · intro s c hs hlast
    cases hl : m.labSection est now with
    | error e =>
      simp [Console.LabModel.render, hl, Except.map] at hs
    | ok lab =>
      simp only [Console.LabModel.render, hl, Except.map, Except.ok.injEq] at hs
      rw [← hs] at hlast
      exact Console.trimTrailingNewlines_no_newline _ _ hlast
  · intro h
    simp [Console.LabModel.labSection, h]

/-- Witness for C4: for the model with only lab timing started, the render
output decomposes as claimed, its last character `d` is not a newline,
and a model without lab timing contributes an empty summary section. -/
theorem c4_witness :
    ("0/0 mutants tested, 0% done, 0:00 elapsed" : String) =
      Console.trimTrailingNewlines
        ((if Console.LabModel.copyText 0 Console.c4Model ≠ "" then
            Console.LabModel.copyText 0 Console.c4Model ++ "\n"
          else Console.LabModel.copyText 0 Console.c4Model)
          ++ "0/0 mutants tested, 0% done, 0:00 elapsed\n"
          ++ String.join (Console.c4Model.scenario_models.map
              (fun sm => sm.render (fun _ => none) 0 ++ "\n"))) ∧
    ('d' : Char) ≠ '\n' ∧
    Console.LabModel.labSection (fun _ _ _ => "") 0 Console.LabModel.default =
      .ok "" := by
  refine ⟨?_, ?_, ?_⟩
  · exact (c4_render_structure (fun _ _ _ => "") (fun _ => none) 0
      Console.c4Model).1 _ _ rfl rfl
  · exact (c4_render_structure (fun _ _ _ => "") (fun _ => none) 0
      Console.c4Model).2.1 "0/0 mutants tested, 0% done, 0:00 elapsed" 'd' rfl rfl
  · exact (c4_render_structure (fun _ _ _ => "") (fun _ => none) 0
      Console.LabModel.default).2.2 rfl

/-- Counterexample to C4 as stated: the render loop strips every trailing
newline (`while s.ends_with('\n') { s.pop(); }`), so the returned string
is not newline-terminated: with lab timing started the output ends in
`…elapsed`, with no final newline. -/
theorem c4_counterexample :
    Console.LabModel.render (fun _ _ _ => "") (fun _ => none) 0 Console.c4Model =
      .ok "0/0 mutants tested, 0% done, 0:00 elapsed" ∧
    ("0/0 mutants tested, 0% done, 0:00 elapsed" : String).data.getLast? ≠
      some '\n' :=
  ⟨rfl, by decide⟩

/-! ## Claim C9 -/

/-- C9: render aborts — the `self.mutants_start_time.unwrap()` panic —
whenever lab timing has started, more than two mutants are done, and
`start_testing_mutants` was never called; and render returns normally
whenever the mutants-testing start time is set, or at most two mutants
are done, or lab timing has not started. -/
theorem c9_render_unwrap_panic (est : Nat → Nat → Nat → String)
    (ll : String → Option String) (now : Nat) (m : Console.LabModel) (t : Nat) :
    (m.lab_start_time = some t → 2 < m.mutants_done →
      m.mutants_start_time = none → m.render est ll now = .error ()) ∧
    ((m.mutants_start_time ≠ none ∨ m.mutants_done ≤ 2 ∨ m.lab_start_time = none) →
      (m.render est ll now).isOk = true) := by
  constructor
  · intro h1 h2 h3
    simp [Console.LabModel.render, Console.LabModel.labSection, h1, h2, h3,
      Except.map]
  · intro h
    cases hl : m.lab_start_time with
    | none =>
      simp [Console.LabModel.render, Console.LabModel.labSection, hl, Except.map,
        Except.isOk, Except.toBool]
    | some t' =>
      rcases h with h | h | h
      · cases hm : m.mutants_start_time with
        | none => exact absurd hm h
        | some u =>
          by_cases hd : 2 < m.mutants_done <;>
            simp [Console.LabModel.render, Console.LabModel.labSection, hl, hm, hd,
              Except.map, Except.isOk, Except.toBool]
      · have hd : ¬ 2 < m.mutants_done := Nat.not_lt.mpr h
        simp [Console.LabModel.render, Console.LabModel.labSection, hl, hd,
          Except.map, Except.isOk, Except.toBool]
      · rw [h] at hl
        simp at hl

/-- Witness for C9: the model with 3 mutants done and no mutants-testing
start time panics; setting the start time makes the same render succeed. -/
theorem c9_witness :
    Console.c9PanicModel.render (fun _ _ _ => "") (fun _ => none) 4 = .error () ∧
    (Console.c9OkModel.render (fun _ _ _ => "") (fun _ => none) 4).isOk = true := by
  constructor
  · exact (c9_render_unwrap_panic (fun _ _ _ => "") (fun _ => none) 4
      Console.c9PanicModel 0).1 rfl (by decide) rfl
  · exact (c9_render_unwrap_panic (fun _ _ _ => "") (fun _ => none) 4
      Console.c9OkModel 0).2 (Or.inl (by simp [Console.c9OkModel]))

/-! ## Claim C5 -/

/-- C5: the rendered percentage is 0 whenever the total mutant count is 0;
the lab summary section carries the `"… remaining"` estimate clause
exactly when `mutants_done > 2`; and after finishing exactly 3 of 10
discovered mutants (one caught, one missed, one timeout) the full render
is the spec's end-to-end line, estimate clause included. -/
theorem c5_estimate_clause_and_percent :
    (∀ d, Console.percentDone d 0 = 0) ∧
    (∀ (est : Nat → Nat → Nat → String) (now : Nat) (m : Console.LabModel)
        (lab : String),
      m.lab_start_time ≠ none →
      m.labSection est now = .ok lab →
      (2 < m.mutants_done ↔ (" remaining" ++ "\n" : String).data <:+ lab.data)) ∧
    Console.c5Model.render (fun _ _ _ => "40s") (fun _ => none) 65 =
      .ok "3/10 mutants tested, 30% done, 1 missed, 1 timeout, 1 caught, 1:05 elapsed, about 40s remaining" := by
  refine ⟨fun d => rfl, ?_, rfl⟩
  intro est now m lab hne hlab
  cases hl : m.lab_start_time with
  | none => exact absurd hl hne
  | some t =>
    simp only [Console.LabModel.labSection, hl] at hlab
    constructor
    · intro hd
      rw [if_pos hd] at hlab
      cases hm : m.mutants_start_time with
      | none => rw [hm] at hlab; simp at hlab
      | some u =>
        rw [hm] at hlab
        simp only [Except.ok.injEq] at hlab
        rw [← hlab, String.append_assoc]
        exact Console.suffix_append_tail _ _
    · intro hsuf
      by_contra hd
      rw [if_neg hd] at hlab
      simp only [Except.ok.injEq] at hlab
      have hsuf2 : (" elapsed" ++ "\n" : String).data <:+ lab.data := by
        rw [← hlab, String.append_assoc]
        exact Console.suffix_append_tail _ _
      rcases List.suffix_or_suffix_of_suffix hsuf hsuf2 with h' | h'
      · exact absurd h' (by decide)
      · exact absurd h' (by decide)

/-- Witness for C5: the end-to-end model's lab section (3 of 10 mutants
done) does contain the estimate clause. -/
theorem c5_witness :
    (" remaining" ++ "\n" : String).data <:+
      ("3/10 mutants tested, 30% done, 1 missed, 1 timeout, 1 caught, 1:05 elapsed, about 40s remaining\n" : String).data := by
  refine (c5_estimate_clause_and_percent.2.1 (fun _ _ _ => "40s") 65 Console.c5Model
    "3/10 mutants tested, 30% done, 1 missed, 1 timeout, 1 caught, 1:05 elapsed, about 40s remaining\n"
    (by simp [Console.c5Model]) rfl).mp (by decide)

/-! ## Claim C6 -/

/-- C6: the completion message of `scenario_finished` is suppressed exactly
when the outcome is a caught mutant with `print_caught` off, or a mutant
whose check or build failed with `print_unviable` off; otherwise the
styled-name/styled-outcome message (with phase durations when
`show_times` is set) is emitted, with the log content appended exactly
when the outcome's `should_show_logs` policy holds or `show_all_logs` is
set — and in that case an unreadable log aborts instead. -/
theorem c6_scenario_finished_message (o : Console.Options)
    (scenario : Console.Scenario) (outcome : Console.ScenarioOutcome) :
    (Console.scenario_finished_message o scenario outcome = .ok none ↔
      Console.suppressed o outcome = true) ∧
    (Console.suppressed o outcome = false →
      ((outcome.should_show_logs || o.show_all_logs) = false →
        Console.scenario_finished_message o scenario outcome =
          .ok (some (Console.messageBase o scenario outcome ++ "\n"))) ∧
      (∀ content, (outcome.should_show_logs || o.show_all_logs) = true →
        outcome.log_content = .ok content →
        Console.scenario_finished_message o scenario outcome =
          .ok (some (Console.messageBase o scenario outcome ++ "\n" ++
            content ++ "\n"))) ∧
      ((outcome.should_show_logs || o.show_all_logs) = true →
        outcome.log_content = .error () →
        Console.scenario_finished_message o scenario outcome = .error ())) := by
  constructor
  · constructor
    · intro h
      by_cases hs : Console.suppressed o outcome = true
      · exact hs
      · exfalso
        rw [Bool.not_eq_true] at hs
        by_cases hlog : (outcome.should_show_logs || o.show_all_logs) = true
        · cases hc : outcome.log_content with
          | ok content =>
            simp [Console.scenario_finished_message, hs, hlog, hc] at h
          | error e =>
            simp [Console.scenario_finished_message, hs, hlog, hc] at h
        · rw [Bool.not_eq_true] at hlog
          simp [Console.scenario_finished_message, hs, hlog] at h
    · intro hs
      simp [Console.scenario_finished_message, hs]
  · intro hs
    refine ⟨?_, ?_, ?_⟩
    · intro hlog
      simp [Console.scenario_finished_message, hs, hlog]
    · intro content hlog hc
      simp [Console.scenario_finished_message, hs, hlog, hc]
    · intro hlog hc
      simp [Console.scenario_finished_message, hs, hlog, hc]

/-- Witness for C6: a baseline success with all display options off emits
the plain styled message with no log content. -/
theorem c6_witness :
    Console.scenario_finished_message Console.c6Options .baseline
        Console.c6Outcome =
      .ok (some (Console.messageBase Console.c6Options .baseline
        Console.c6Outcome ++ "\n")) :=
  ((c6_scenario_finished_message Console.c6Options .baseline
      Console.c6Outcome).2 rfl).1 rfl
